import Mathlib

set_option linter.unusedVariables false

/-! Shallow embedding of the VGA-generation core of `examples/hello_vga.rs`
(800x600@60Hz mono VGA on a TM4C123x): the vertical timing constants, the
glyph character set and compiled font table, the `FrameBuffer` state (line
counter, visible-line index, text cell grid and rendered-line word buffer),
the per-scanline renderer `FrameBuffer.render`, the interrupt-A line
sequencer `start_of_line` (including its writes to the PC4 output pin, the
pin the source documents as VSYNC), and the interrupt-B pixel clock-out
handler `start_of_data`, modelled as the trace of data-register writes and
TNF (transmit-FIFO-not-full) spin-waits it performs on the SSI2 peripheral.

Machine integers are modelled as `Nat`: every `usize` value involved stays
far below 2^64 and every `u8`/`u16` arithmetic operation performed by the
code (`<<< 8`, `|||` of a byte) stays below 2^16, so no wrap-around can
occur and no explicit modulus is needed. Fixed-size arrays are modelled as
total functions from indices, written only at the indices the source
writes. -/

/-- Vertical visible area in lines (`V_VISIBLE_AREA`). -/
def V_VISIBLE_AREA : Nat := 600

/-- Vertical front porch in lines (`V_FRONT_PORCH`). -/
def V_FRONT_PORCH : Nat := 1

/-- Vertical sync pulse in lines (`V_SYNC_PULSE`). -/
def V_SYNC_PULSE : Nat := 4

/-- Vertical back porch in lines (`V_BACK_PORCH`). -/
def V_BACK_PORCH : Nat := 23

/-- Total lines per frame (`V_WHOLE_FRAME`). -/
def V_WHOLE_FRAME : Nat := V_SYNC_PULSE + V_BACK_PORCH + V_VISIBLE_AREA + V_FRONT_PORCH

/-- Text characters are this many pixels across (`FONT_WIDTH`). -/
def FONT_WIDTH : Nat := 8

/-- Text characters are this many pixels high (`FONT_HEIGHT`). -/
def FONT_HEIGHT : Nat := 16

/-- Number of lines in the frame buffer (`VISIBLE_LINES`). -/
def VISIBLE_LINES : Nat := 300

/-- Number of columns in the frame buffer (`VISIBLE_COLS`). -/
def VISIBLE_COLS : Nat := 400

/-- How many 16-bit words in a line (`HORIZONTAL_WORDS`). -/
def HORIZONTAL_WORDS : Nat := (VISIBLE_COLS + 15) / 16

/-- How many characters in a line (`TEXT_MAX_COLS`). -/
def TEXT_MAX_COLS : Nat := VISIBLE_COLS / FONT_WIDTH

/-- Highest X co-ord for text (`MAX_X`). -/
def MAX_X : Nat := TEXT_MAX_COLS - 1

/-- How many lines of characters on the screen (`TEXT_MAX_ROWS`). -/
def TEXT_MAX_ROWS : Nat := VISIBLE_LINES / FONT_HEIGHT

/-- Highest Y co-ord for text (`MAX_Y`). -/
def MAX_Y : Nat := TEXT_MAX_ROWS - 1

/-- Number of lines the text is rendered to (`VISIBLE_LINES_WITH_TEXT`). -/
def VISIBLE_LINES_WITH_TEXT : Nat := TEXT_MAX_ROWS * FONT_HEIGHT

/-- The custom character set of the source (`enum Glyph`), 96 variants in
declaration order, so that `glyphCode` below matches the Rust
`glyph as usize` discriminant. -/
inductive Glyph where
  | Unknown
  | Space
  | ExclamationMark
  | DoubleQuote
  | Hash
  | Dollar
  | Percent
  | Ampersand
  | SingleQuote
  | OpenRoundBracket
  | CloseRoundBracket
  | Asterisk
  | Plus
  | Comma
  | Minus
  | Period
  | Slash
  | Digit0
  | Digit1
  | Digit2
  | Digit3
  | Digit4
  | Digit5
  | Digit6
  | Digit7
  | Digit8
  | Digit9
  | Colon
  | SemiColon
  | LessThan
  | Equals
  | GreaterThan
  | QuestionMark
  | At
  | UppercaseA
  | UppercaseB
  | UppercaseC
  | UppercaseD
  | UppercaseE
  | UppercaseF
  | UppercaseG
  | UppercaseH
  | UppercaseI
  | UppercaseJ
  | UppercaseK
  | UppercaseL
  | UppercaseM
  | UppercaseN
  | UppercaseO
  | UppercaseP
  | UppercaseQ
  | UppercaseR
  | UppercaseS
  | UppercaseT
  | UppercaseU
  | UppercaseV
  | UppercaseW
  | UppercaseX
  | UppercaseY
  | UppercaseZ
  | OpenSquareBracket
  | Backslash
  | CloseSquareBracket
  | Caret
  | Underscore
  | Backtick
  | LowercaseA
  | LowercaseB
  | LowercaseC
  | LowercaseD
  | LowercaseE
  | LowercaseF
  | LowercaseG
  | LowercaseH
  | LowercaseI
  | LowercaseJ
  | LowercaseK
  | LowercaseL
  | LowercaseM
  | LowercaseN
  | LowercaseO
  | LowercaseP
  | LowercaseQ
  | LowercaseR
  | LowercaseS
  | LowercaseT
  | LowercaseU
  | LowercaseV
  | LowercaseW
  | LowercaseX
  | LowercaseY
  | LowercaseZ
  | OpenBrace
  | VerticalBar
  | CloseBrace
  | Tilde
deriving DecidableEq

/-- Discriminant of a glyph, i.e. the Rust `glyph as usize` cast of the
`#[repr(u8)]` enum: the zero-based declaration index of the variant. -/
def glyphCode : Glyph → Nat
  | .Unknown => 0
  | .Space => 1
  | .ExclamationMark => 2
  | .DoubleQuote => 3
  | .Hash => 4
  | .Dollar => 5
  | .Percent => 6
  | .Ampersand => 7
  | .SingleQuote => 8
  | .OpenRoundBracket => 9
  | .CloseRoundBracket => 10
  | .Asterisk => 11
  | .Plus => 12
  | .Comma => 13
  | .Minus => 14
  | .Period => 15
  | .Slash => 16
  | .Digit0 => 17
  | .Digit1 => 18
  | .Digit2 => 19
  | .Digit3 => 20
  | .Digit4 => 21
  | .Digit5 => 22
  | .Digit6 => 23
  | .Digit7 => 24
  | .Digit8 => 25
  | .Digit9 => 26
  | .Colon => 27
  | .SemiColon => 28
  | .LessThan => 29
  | .Equals => 30
  | .GreaterThan => 31
  | .QuestionMark => 32
  | .At => 33
  | .UppercaseA => 34
  | .UppercaseB => 35
  | .UppercaseC => 36
  | .UppercaseD => 37
  | .UppercaseE => 38
  | .UppercaseF => 39
  | .UppercaseG => 40
  | .UppercaseH => 41
  | .UppercaseI => 42
  | .UppercaseJ => 43
  | .UppercaseK => 44
  | .UppercaseL => 45
  | .UppercaseM => 46
  | .UppercaseN => 47
  | .UppercaseO => 48
  | .UppercaseP => 49
  | .UppercaseQ => 50
  | .UppercaseR => 51
  | .UppercaseS => 52
  | .UppercaseT => 53
  | .UppercaseU => 54
  | .UppercaseV => 55
  | .UppercaseW => 56
  | .UppercaseX => 57
  | .UppercaseY => 58
  | .UppercaseZ => 59
  | .OpenSquareBracket => 60
  | .Backslash => 61
  | .CloseSquareBracket => 62
  | .Caret => 63
  | .Underscore => 64
  | .Backtick => 65
  | .LowercaseA => 66
  | .LowercaseB => 67
  | .LowercaseC => 68
  | .LowercaseD => 69
  | .LowercaseE => 70
  | .LowercaseF => 71
  | .LowercaseG => 72
  | .LowercaseH => 73
  | .LowercaseI => 74
  | .LowercaseJ => 75
  | .LowercaseK => 76
  | .LowercaseL => 77
  | .LowercaseM => 78
  | .LowercaseN => 79
  | .LowercaseO => 80
  | .LowercaseP => 81
  | .LowercaseQ => 82
  | .LowercaseR => 83
  | .LowercaseS => 84
  | .LowercaseT => 85
  | .LowercaseU => 86
  | .LowercaseV => 87
  | .LowercaseW => 88
  | .LowercaseX => 89
  | .LowercaseY => 90
  | .LowercaseZ => 91
  | .OpenBrace => 92
  | .VerticalBar => 93
  | .CloseBrace => 94
  | .Tilde => 95

/-- The compiled-in font table (`FONT_DATA`), 96 glyphs of 16 row-bitmask
bytes each, 1536 bytes total. -/
def FONT_DATA : List Nat := [
  0xFF,0xFF,0xFF,0xFF,0xFF,0xFF,0xFF,0xFF,0xFF,0xFF,0xFF,0xFF,0xFF,0xFF,0xFF,0xFF,
  0x00,0x00,0x00,0x00,0x00,0x00,0x00,0x00,0x00,0x00,0x00,0x00,0x00,0x00,0x00,0x00,
  0x10,0x10,0x10,0x10,0x10,0x10,0x10,0x10,0x10,0x10,0x00,0x00,0x10,0x10,0x00,0x00,
  0x24,0x24,0x24,0x24,0x24,0x24,0x00,0x00,0x00,0x00,0x00,0x00,0x00,0x00,0x00,0x00,
  0x24,0x24,0x24,0x24,0x7E,0x7E,0x24,0x24,0x7E,0x7E,0x24,0x24,0x24,0x24,0x00,0x00,
  0x10,0x10,0x3C,0x3C,0x50,0x50,0x38,0x38,0x14,0x14,0x78,0x78,0x10,0x10,0x00,0x00,
  0x00,0x00,0x62,0x62,0x64,0x64,0x08,0x08,0x10,0x10,0x26,0x26,0x46,0x46,0x00,0x00,
  0x30,0x30,0x48,0x48,0x48,0x48,0x30,0x30,0x4A,0x4A,0x44,0x44,0x3A,0x3A,0x00,0x00,
  0x10,0x10,0x10,0x10,0x10,0x10,0x00,0x00,0x00,0x00,0x00,0x00,0x00,0x00,0x00,0x00,
  0x10,0x10,0x20,0x20,0x40,0x40,0x40,0x40,0x40,0x40,0x20,0x20,0x10,0x10,0x00,0x00,
  0x10,0x10,0x08,0x08,0x04,0x04,0x04,0x04,0x04,0x04,0x08,0x08,0x10,0x10,0x00,0x00,
  0x10,0x10,0x54,0x54,0x38,0x38,0x10,0x10,0x38,0x38,0x54,0x54,0x10,0x10,0x00,0x00,
  0x00,0x00,0x10,0x10,0x10,0x10,0x7C,0x7C,0x10,0x10,0x10,0x10,0x00,0x00,0x00,0x00,
  0x00,0x00,0x00,0x00,0x00,0x00,0x00,0x00,0x08,0x08,0x08,0x08,0x10,0x10,0x00,0x00,
  0x00,0x00,0x00,0x00,0x00,0x00,0x7E,0x7E,0x00,0x00,0x00,0x00,0x00,0x00,0x00,0x00,
  0x00,0x00,0x00,0x00,0x00,0x00,0x00,0x00,0x00,0x00,0x00,0x00,0x10,0x10,0x00,0x00,
  0x00,0x00,0x02,0x02,0x04,0x04,0x08,0x08,0x10,0x10,0x20,0x20,0x40,0x40,0x00,0x00,
  0x3C,0x3C,0x42,0x42,0x46,0x46,0x5A,0x5A,0x62,0x62,0x42,0x42,0x3C,0x3C,0x00,0x00,
  0x08,0x08,0x18,0x18,0x08,0x08,0x08,0x08,0x08,0x08,0x08,0x08,0x1C,0x1C,0x00,0x00,
  0x3C,0x3C,0x42,0x42,0x02,0x02,0x1C,0x1C,0x20,0x20,0x40,0x40,0x7E,0x7E,0x00,0x00,
  0x7E,0x7E,0x02,0x02,0x04,0x04,0x1C,0x1C,0x02,0x02,0x42,0x42,0x3C,0x3C,0x00,0x00,
  0x04,0x04,0x0C,0x0C,0x14,0x14,0x24,0x24,0x7E,0x7E,0x04,0x04,0x04,0x04,0x00,0x00,
  0x7E,0x7E,0x40,0x40,0x7C,0x7C,0x02,0x02,0x02,0x02,0x42,0x42,0x3C,0x3C,0x00,0x00,
  0x1E,0x1E,0x20,0x20,0x40,0x40,0x7C,0x7C,0x42,0x42,0x42,0x42,0x3C,0x3C,0x00,0x00,
  0x7E,0x7E,0x02,0x02,0x04,0x04,0x08,0x08,0x10,0x10,0x10,0x10,0x10,0x10,0x00,0x00,
  0x3C,0x3C,0x42,0x42,0x42,0x42,0x3C,0x3C,0x42,0x42,0x42,0x42,0x3C,0x3C,0x00,0x00,
  0x3C,0x3C,0x42,0x42,0x42,0x42,0x3E,0x3E,0x02,0x02,0x04,0x04,0x78,0x78,0x00,0x00,
  0x00,0x00,0x00,0x00,0x10,0x10,0x00,0x00,0x10,0x10,0x00,0x00,0x00,0x00,0x00,0x00,
  0x00,0x00,0x00,0x00,0x08,0x08,0x00,0x00,0x08,0x08,0x08,0x08,0x10,0x00,0x00,0x00,
  0x04,0x04,0x08,0x08,0x10,0x10,0x20,0x20,0x10,0x10,0x08,0x08,0x04,0x04,0x00,0x00,
  0x00,0x00,0x00,0x00,0x7E,0x7E,0x00,0x00,0x7E,0x7E,0x00,0x00,0x00,0x00,0x00,0x00,
  0x20,0x20,0x10,0x10,0x08,0x08,0x04,0x04,0x08,0x08,0x10,0x10,0x20,0x20,0x00,0x00,
  0x20,0x20,0x40,0x40,0x00,0x00,0x00,0x00,0x00,0x00,0x00,0x00,0x00,0x00,0x00,0x00,
  0x3C,0x3C,0x42,0x42,0x4A,0x4A,0x56,0x56,0x4C,0x4C,0x40,0x40,0x3E,0x3E,0x00,0x00,
  0x18,0x18,0x24,0x24,0x42,0x42,0x42,0x42,0x7E,0x7E,0x42,0x42,0x42,0x42,0x00,0x00,
  0x7C,0x7C,0x42,0x42,0x42,0x42,0x7C,0x7C,0x42,0x42,0x42,0x42,0x7C,0x7C,0x00,0x00,
  0x3C,0x3C,0x42,0x42,0x40,0x40,0x40,0x40,0x40,0x40,0x42,0x42,0x3C,0x3C,0x00,0x00,
  0x7C,0x7C,0x42,0x42,0x42,0x42,0x42,0x42,0x42,0x42,0x42,0x42,0x7C,0x7C,0x00,0x00,
  0x7E,0x7E,0x40,0x40,0x40,0x40,0x7C,0x7C,0x40,0x40,0x40,0x40,0x7E,0x7E,0x00,0x00,
  0x7E,0x7E,0x40,0x40,0x40,0x40,0x7C,0x7C,0x40,0x40,0x40,0x40,0x40,0x40,0x00,0x00,
  0x3E,0x3E,0x40,0x40,0x40,0x40,0x40,0x4E,0x4E,0x42,0x42,0x42,0x3E,0x3E,0x00,0x00,
  0x42,0x42,0x42,0x42,0x42,0x42,0x7E,0x7E,0x42,0x42,0x42,0x42,0x42,0x42,0x00,0x00,
  0x38,0x38,0x10,0x10,0x10,0x10,0x10,0x10,0x10,0x10,0x10,0x10,0x38,0x38,0x00,0x00,
  0x02,0x02,0x02,0x02,0x02,0x02,0x02,0x02,0x02,0x02,0x42,0x42,0x3C,0x3C,0x00,0x00,
  0x42,0x42,0x44,0x44,0x48,0x48,0x70,0x70,0x48,0x48,0x44,0x44,0x42,0x42,0x00,0x00,
  0x40,0x40,0x40,0x40,0x40,0x40,0x40,0x40,0x40,0x40,0x40,0x40,0x7E,0x7E,0x00,0x00,
  0x42,0x42,0x66,0x66,0x5A,0x5A,0x5A,0x5A,0x42,0x42,0x42,0x42,0x42,0x42,0x00,0x00,
  0x42,0x42,0x62,0x62,0x52,0x52,0x5A,0x5A,0x4A,0x4A,0x46,0x46,0x42,0x42,0x00,0x00,
  0x3C,0x3C,0x42,0x42,0x42,0x42,0x42,0x42,0x42,0x42,0x42,0x42,0x3C,0x3C,0x00,0x00,
  0x7C,0x7C,0x42,0x42,0x42,0x42,0x7C,0x7C,0x40,0x40,0x40,0x40,0x40,0x40,0x00,0x00,
  0x3C,0x3C,0x42,0x42,0x42,0x42,0x42,0x42,0x4A,0x4A,0x44,0x44,0x3A,0x3A,0x00,0x00,
  0x7C,0x7C,0x42,0x42,0x42,0x42,0x7C,0x7C,0x48,0x48,0x44,0x44,0x42,0x42,0x00,0x00,
  0x3C,0x3C,0x42,0x42,0x40,0x40,0x3C,0x3C,0x02,0x02,0x42,0x42,0x3C,0x3C,0x00,0x00,
  0x7C,0x7C,0x10,0x10,0x10,0x10,0x10,0x10,0x10,0x10,0x10,0x10,0x10,0x10,0x00,0x00,
  0x42,0x42,0x42,0x42,0x42,0x42,0x42,0x42,0x42,0x42,0x42,0x42,0x3C,0x3C,0x00,0x00,
  0x42,0x42,0x42,0x42,0x42,0x42,0x42,0x42,0x42,0x42,0x24,0x24,0x18,0x18,0x00,0x00,
  0x42,0x42,0x42,0x42,0x42,0x42,0x5A,0x5A,0x5A,0x5A,0x66,0x66,0x42,0x42,0x00,0x00,
  0x42,0x42,0x42,0x42,0x24,0x24,0x18,0x18,0x24,0x24,0x42,0x42,0x42,0x42,0x00,0x00,
  0x44,0x44,0x44,0x44,0x28,0x28,0x10,0x10,0x10,0x10,0x10,0x10,0x10,0x10,0x00,0x00,
  0x7E,0x7E,0x02,0x02,0x04,0x04,0x18,0x18,0x20,0x20,0x40,0x40,0x7E,0x7E,0x00,0x00,
  0x7E,0x7E,0x60,0x60,0x60,0x60,0x60,0x60,0x60,0x60,0x60,0x60,0x7E,0x7E,0x00,0x00,
  0x00,0x00,0x40,0x40,0x20,0x20,0x10,0x10,0x08,0x08,0x04,0x04,0x02,0x02,0x00,0x00,
  0x7E,0x7E,0x06,0x06,0x06,0x06,0x06,0x06,0x06,0x06,0x06,0x06,0x7E,0x7E,0x00,0x00,
  0x00,0x00,0x00,0x00,0x10,0x10,0x28,0x28,0x44,0x44,0x00,0x00,0x00,0x00,0x00,0x00,
  0x00,0x00,0x00,0x00,0x00,0x00,0x00,0x00,0x00,0x00,0x00,0x00,0x7E,0x7E,0x00,0x00,
  0x20,0x20,0x10,0x10,0x08,0x08,0x00,0x00,0x00,0x00,0x00,0x00,0x00,0x00,0x00,0x00,
  0x00,0x00,0x00,0x00,0x3C,0x3C,0x02,0x02,0x3E,0x3E,0x42,0x42,0x3E,0x3E,0x00,0x00,
  0x40,0x40,0x40,0x40,0x7C,0x7C,0x42,0x42,0x42,0x42,0x42,0x42,0x7C,0x7C,0x00,0x00,
  0x00,0x00,0x00,0x00,0x3E,0x3E,0x40,0x40,0x40,0x40,0x40,0x40,0x3E,0x3E,0x00,0x00,
  0x02,0x02,0x02,0x02,0x3E,0x3E,0x42,0x42,0x42,0x42,0x42,0x42,0x3E,0x3E,0x00,0x00,
  0x00,0x00,0x00,0x00,0x3C,0x3C,0x42,0x42,0x7E,0x7E,0x40,0x40,0x3E,0x3E,0x00,0x00,
  0x1C,0x1C,0x22,0x22,0x20,0x20,0x7C,0x7C,0x20,0x20,0x20,0x20,0x20,0x20,0x00,0x00,
  0x00,0x00,0x00,0x00,0x3C,0x3C,0x42,0x42,0x42,0x42,0x3E,0x3E,0x02,0x02,0x3C,0x3C,
  0x40,0x40,0x40,0x40,0x7C,0x7C,0x42,0x42,0x42,0x42,0x42,0x42,0x42,0x42,0x00,0x00,
  0x10,0x10,0x00,0x00,0x30,0x30,0x10,0x10,0x10,0x10,0x10,0x10,0x38,0x38,0x00,0x00,
  0x04,0x04,0x00,0x00,0x3C,0x3C,0x04,0x04,0x04,0x04,0x04,0x04,0x44,0x44,0x38,0x38,
  0x40,0x40,0x40,0x40,0x42,0x42,0x44,0x44,0x78,0x78,0x44,0x44,0x42,0x42,0x00,0x00,
  0x30,0x30,0x10,0x10,0x10,0x10,0x10,0x10,0x10,0x10,0x10,0x10,0x38,0x38,0x00,0x00,
  0x00,0x00,0x00,0x00,0x66,0x66,0x5A,0x5A,0x5A,0x5A,0x5A,0x5A,0x42,0x42,0x00,0x00,
  0x00,0x00,0x00,0x00,0x7C,0x7C,0x42,0x42,0x42,0x42,0x42,0x42,0x42,0x42,0x00,0x00,
  0x00,0x00,0x00,0x00,0x3C,0x3C,0x42,0x42,0x42,0x42,0x42,0x42,0x3C,0x3C,0x00,0x00,
  0x00,0x00,0x00,0x00,0x7C,0x7C,0x42,0x42,0x42,0x42,0x7C,0x7C,0x40,0x40,0x40,0x40,
  0x00,0x00,0x00,0x00,0x3E,0x3E,0x42,0x42,0x42,0x42,0x3E,0x3E,0x02,0x02,0x02,0x02,
  0x00,0x00,0x00,0x00,0x5E,0x5E,0x60,0x60,0x40,0x40,0x40,0x40,0x40,0x40,0x00,0x00,
  0x00,0x00,0x00,0x00,0x3E,0x3E,0x40,0x40,0x3C,0x3C,0x02,0x02,0x7C,0x7C,0x00,0x00,
  0x10,0x10,0x10,0x10,0x7C,0x7C,0x10,0x10,0x10,0x10,0x12,0x12,0x0C,0x0C,0x00,0x00,
  0x00,0x00,0x00,0x00,0x42,0x42,0x42,0x42,0x42,0x42,0x46,0x46,0x3A,0x3A,0x00,0x00,
  0x00,0x00,0x00,0x00,0x42,0x42,0x42,0x42,0x42,0x42,0x24,0x24,0x18,0x18,0x00,0x00,
  0x00,0x00,0x00,0x00,0x42,0x42,0x42,0x42,0x5A,0x5A,0x5A,0x5A,0x66,0x66,0x00,0x00,
  0x00,0x00,0x00,0x00,0x42,0x42,0x24,0x24,0x18,0x18,0x24,0x24,0x42,0x42,0x00,0x00,
  0x00,0x00,0x00,0x00,0x42,0x42,0x42,0x42,0x42,0x42,0x3E,0x3E,0x02,0x02,0x3C,0x3C,
  0x00,0x00,0x00,0x00,0x7E,0x7E,0x04,0x04,0x18,0x18,0x20,0x20,0x7E,0x7E,0x00,0x00,
  0x0E,0x0E,0x18,0x18,0x18,0x18,0x70,0x70,0x18,0x18,0x18,0x18,0x0E,0x0E,0x00,0x00,
  0x10,0x10,0x10,0x10,0x10,0x10,0x10,0x10,0x10,0x10,0x10,0x10,0x10,0x10,0x00,0x00,
  0x70,0x70,0x18,0x18,0x18,0x18,0x0E,0x0E,0x18,0x18,0x18,0x18,0x70,0x70,0x00,0x00,
  0x00,0x00,0x00,0x00,0x24,0x24,0x54,0x54,0x48,0x48,0x00,0x00,0x00,0x00,0x00,0x00]


/-- The mutable video state of the source (`struct FrameBuffer`): current
scanline number, optional visible frame-buffer line, text cell grid
(`text[y][x]`, modelled as a total function on row and column indices) and
the rendered-line word buffer (indexed by word column). -/
structure FrameBuffer where
  line_no : Nat
  fb_line : Option Nat
  text : Nat → Nat → Glyph
  render_line : Nat → Nat

/-- Convert a Unicode code-point to a glyph (`FrameBuffer::map_char`): a
closed table mapping only the listed characters, everything else to
`Glyph.Unknown`. -/
def map_char (ch : Char) : Glyph :=
  if ch = 'A' then Glyph.UppercaseA
  else if ch = 'B' then Glyph.UppercaseB
  else if ch = 'C' then Glyph.UppercaseC
  else if ch = 'D' then Glyph.UppercaseD
  else if ch = 'R' then Glyph.UppercaseR
  else if ch = ' ' then Glyph.Space
  else Glyph.Unknown

/-- Write a character to the text buffer (`FrameBuffer::write_char`):
bounds-checked silent no-op outside the grid, point update inside. -/
def write_char (fb : FrameBuffer) (ch : Char) (x y : Nat) : FrameBuffer :=
  if x < TEXT_MAX_COLS ∧ y < TEXT_MAX_ROWS then
    { fb with text := fun r c => if r = y ∧ c = x then map_char ch else fb.text r c }
  else
    fb

/-- Write a string to the text buffer, wrapping off the end of the screen
(`FrameBuffer::write_string`): after each character the column advances,
wraps to column 0 of the next row past the last column, and the row wraps
to row 0 past the last row. -/
def write_string (fb : FrameBuffer) (message : List Char) (x y : Nat) : FrameBuffer :=
  match message with
  | [] => fb
  | ch :: rest =>
    let fb2 := write_char fb ch x y
    let x2 := x + 1
    let x3 := if TEXT_MAX_COLS ≤ x2 then 0 else x2
    let y2 := if TEXT_MAX_COLS ≤ x2 then y + 1 else y
    let y3 := if TEXT_MAX_ROWS ≤ y2 then 0 else y2
    write_string fb2 rest x3 y3

/-- Convert the glyph enum to the bits needed for a given line of that
glyph (`FrameBuffer::font_lookup`): index `glyph as usize * FONT_HEIGHT + row`
into `FONT_DATA`. -/
def font_lookup (glyph : Glyph) (row : Nat) : Nat :=
  FONT_DATA.getD (glyphCode glyph * FONT_HEIGHT + row) 0

/-- Calculate a line of pixels (`FrameBuffer::render`): when `fb_line` is
some visible line inside the text band, pack for each word column the font
bytes of the two adjacent text cells, left cell into the high byte; when it
is some line beyond the text band, zero every word; when it is `none`,
leave the buffer untouched. The word buffer has `HORIZONTAL_WORDS` entries
(the source iterates over the fixed-size array), so only those indices are
written. -/
def render (fb : FrameBuffer) : FrameBuffer :=
  match fb.fb_line with
  | some line =>
    if line < VISIBLE_LINES_WITH_TEXT then
      let text_row := line / FONT_HEIGHT
      let font_row := line % FONT_HEIGHT
      { fb with render_line := fun word_col =>
          if word_col < HORIZONTAL_WORDS then
            let text_col := word_col * 2
            let left := font_lookup (fb.text text_row text_col) font_row
            let right := font_lookup (fb.text text_row (text_col + 1)) font_row
            (left <<< 8) ||| right
          else
            fb.render_line word_col }
    else
      { fb with render_line := fun word_col =>
          if word_col < HORIZONTAL_WORDS then 0 else fb.render_line word_col }
  | none => fb

/-- Interrupt A handler body (`start_of_line`): increment the line counter,
wrap at `V_WHOLE_FRAME`, recompute `fb_line` (halving the offset into the
visible band because each stored line is shown twice) and render the line.
`pc4` is the state of the PC4 output pin, the pin the source's header
documents as VSYNC: the only writes the source performs to it are the two
`bb::change_bit` calls bracketing the `render()` call (high before, low
after); the vsync assert in the wrap branch and the vsync deassert in the
`line_no == V_SYNC_PULSE` branch are commented out in the source and thus
have no effect here. -/
def start_of_line (fb_info : FrameBuffer) (pc4 : Bool) : FrameBuffer × Bool :=
  let fb1 := { fb_info with line_no := fb_info.line_no + 1 }
  let fb2 := if fb1.line_no = V_WHOLE_FRAME then { fb1 with line_no := 0 } else fb1
  if V_SYNC_PULSE + V_BACK_PORCH ≤ fb2.line_no ∧
      fb2.line_no < V_SYNC_PULSE + V_BACK_PORCH + V_VISIBLE_AREA then
    let fb3 := { fb2 with fb_line := some ((fb2.line_no - (V_SYNC_PULSE + V_BACK_PORCH)) >>> 1) }
    let pc4a := true
    let fb4 := render fb3
    let pc4b := false
    (fb4, pc4b)
  else
    ({ fb2 with fb_line := none }, pc4)

/-- Observable actions interrupt B performs on the SSI2 shift-out
peripheral: a write of one word to the data register, or a spin-wait until
the transmit-FIFO-not-full (TNF) status flag is set. -/
inductive SsiEvent where
  | write (word : Nat)
  | spin_wait_tnf
deriving DecidableEq

/-- The rendered-line word buffer as the list the source's
`for word in fb_info.render_line.iter()` walks, in index order. -/
def renderWords (fb : FrameBuffer) : List Nat :=
  (List.range HORIZONTAL_WORDS).map fb.render_line

/-- Interrupt B handler body (`start_of_data`), as the trace of peripheral
actions it performs: nothing when `fb_line` is `none`; otherwise, for each
word of the rendered line in index order, a write of that word to the data
register followed by a spin-wait on the TNF flag. -/
def start_of_data (fb : FrameBuffer) : List SsiEvent :=
  if fb.fb_line.isSome then
    (renderWords fb).foldl
      (fun trace word => trace ++ [SsiEvent.write word, SsiEvent.spin_wait_tnf]) []
  else
    []

/-- Line sequencer state extended with the frame counter.

Modelled from the spec: this revision of `hello_vga.rs` carries no frame
counter field (the repository's other example revisions do); the spec
states that `advance_line()` shall "Increment `line_number`; wrap to 0 and
increment `frame_counter` when it reaches total lines" and exposes
`frame_counter` as a readable. `advance_line` below drives the embedded
`start_of_line` for everything the source implements and increments
`frame_counter` exactly when the line counter wraps, per the spec. -/
structure SeqState where
  fb : FrameBuffer
  frame_counter : Nat

/-- Modelled from the spec: one `advance_line()` step, i.e. the source's
`start_of_line` (the PC4 pin is irrelevant to line/frame counting) plus the
spec-mandated `frame_counter` increment on wrap. -/
def advance_line (s : SeqState) : SeqState :=
  { fb := (start_of_line s.fb false).1,
    frame_counter :=
      if s.fb.line_no + 1 = V_WHOLE_FRAME then s.frame_counter + 1 else s.frame_counter }

/-- Observation function for the round-trip claim: the byte of the packed
rendered line that displays text column `col` — the high byte of word
`col / 2` for even columns, the low byte for odd columns. -/
def columnByte (fb : FrameBuffer) (col : Nat) : Nat :=
  let word := fb.render_line (col / 2)
  if col % 2 = 0 then (word >>> 8) % 256 else word % 256

/-- The clock-out trace claimed by the spec, for comparison with
`start_of_data`: a spin-wait on the TNF flag before (rather than after)
each data-register write. -/
def specEmitTrace (fb : FrameBuffer) : List SsiEvent :=
  if fb.fb_line.isSome then
    (renderWords fb).foldl
      (fun trace word => trace ++ [SsiEvent.spin_wait_tnf, SsiEvent.write word]) []
  else
    []

/-- A blank frame buffer: the initial value of the source's `FB_INFO`
static (line 0, no visible line, all-space text, zeroed render line). -/
def blankFB : FrameBuffer :=
  { line_no := 0, fb_line := none, text := fun _ _ => Glyph.Space,
    render_line := fun _ => 0 }

set_option maxRecDepth 100000

/-- Advancing the line sequencer viewed on the `FrameBuffer` alone: the
first component of `start_of_line` does not depend on the pin argument
(proved in `start_of_line_fst` below), so it is taken at `false`. -/
def advanceFB (fb : FrameBuffer) : FrameBuffer :=
  (start_of_line fb false).1

/-- Concrete input: the frame buffer on the last line of the frame
(line 627), one call before the wrap to line 0. -/
def fb627 : FrameBuffer := { blankFB with line_no := V_WHOLE_FRAME - 1 }

/-- Concrete input: a visible line with every rendered word equal to 3. -/
def fbC5 : FrameBuffer := { blankFB with fb_line := some 0, render_line := fun _ => 3 }

/-- Concrete input: the frame buffer on line 26, the last back-porch line,
one call before the first visible line of the frame. -/
def fb26 : FrameBuffer := { blankFB with line_no := V_SYNC_PULSE + V_BACK_PORCH - 1 }


/-- Rendering never changes which line is considered visible. -/
theorem render_fb_line (fb : FrameBuffer) : (render fb).fb_line = fb.fb_line := by
  unfold render
  split
  next l heq => split <;> simp [heq]
  next heq => rfl

/-- Rendering never changes the line counter. -/
theorem render_line_no (fb : FrameBuffer) : (render fb).line_no = fb.line_no := by
  unfold render
  split
  next l heq => split <;> rfl
  next heq => rfl

/-- The frame-buffer component of `start_of_line` is independent of the
incoming pin state. -/
theorem start_of_line_fst (fb : FrameBuffer) (p : Bool) :
    (start_of_line fb p).1 = advanceFB fb := by
  unfold advanceFB start_of_line
  dsimp only
  split <;> split <;> rfl

/-- One `start_of_line` call increments the line counter and wraps it to 0
when it reaches `V_WHOLE_FRAME`. -/
theorem advanceFB_line_no (fb : FrameBuffer) :
    (advanceFB fb).line_no =
      if fb.line_no + 1 = V_WHOLE_FRAME then 0 else fb.line_no + 1 := by
  unfold advanceFB start_of_line
  dsimp only
  by_cases hw : fb.line_no + 1 = V_WHOLE_FRAME
  · rw [if_pos hw, if_neg (by decide :
      ¬(V_SYNC_PULSE + V_BACK_PORCH ≤ 0 ∧ 0 < V_SYNC_PULSE + V_BACK_PORCH + V_VISIBLE_AREA)),
      if_pos hw]
  · rw [if_neg hw, if_neg hw]
    split
    next h => exact render_line_no _
    next h => rfl

/-- After one `start_of_line` call, `fb_line` is determined by the new
line counter exactly as the source's visibility test computes it. -/
theorem advanceFB_fb_line (fb : FrameBuffer) :
    (advanceFB fb).fb_line =
      if V_SYNC_PULSE + V_BACK_PORCH ≤ (advanceFB fb).line_no ∧
          (advanceFB fb).line_no < V_SYNC_PULSE + V_BACK_PORCH + V_VISIBLE_AREA then
        some (((advanceFB fb).line_no - (V_SYNC_PULSE + V_BACK_PORCH)) >>> 1)
      else none := by
  rw [advanceFB_line_no]
  unfold advanceFB start_of_line
  dsimp only
  by_cases hw : fb.line_no + 1 = V_WHOLE_FRAME
  · rw [if_pos hw, if_pos hw,
      if_neg (by decide :
        ¬(V_SYNC_PULSE + V_BACK_PORCH ≤ 0 ∧ 0 < V_SYNC_PULSE + V_BACK_PORCH + V_VISIBLE_AREA)),
      if_neg (by decide :
        ¬(V_SYNC_PULSE + V_BACK_PORCH ≤ 0 ∧ 0 < V_SYNC_PULSE + V_BACK_PORCH + V_VISIBLE_AREA))]
  · rw [if_neg hw, if_neg hw]
    split
    next h => rw [render_fb_line]
    next h => rfl

/-- Packing a byte into the high byte of a word: the source's
`(left << 8) | right` equals `256 * left + right` when `right` is a
byte. -/
theorem pack_eq (l r : Nat) (hr : r < 256) : (l <<< 8) ||| r = 256 * l + r := by
  have e : (2 : Nat) ^ 8 = 256 := by norm_num
  have h := Nat.mul_add_lt_is_or (b := r) (show r < 2 ^ 8 by rw [e]; exact hr) l
  rw [e] at h
  rw [Nat.shiftLeft_eq, e, Nat.mul_comm l 256, ← h]

/-- The high byte of a packed word recovers the left operand. -/
theorem hi_byte (l r : Nat) (hl : l < 256) (hr : r < 256) :
    (((l <<< 8) ||| r) >>> 8) % 256 = l := by
  have e : (2 : Nat) ^ 8 = 256 := by norm_num
  rw [pack_eq l r hr, Nat.shiftRight_eq_div_pow, e]
  omega

/-- The low byte of a packed word recovers the right operand. -/
theorem lo_byte (l r : Nat) (hr : r < 256) : ((l <<< 8) ||| r) % 256 = r := by
  rw [pack_eq l r hr]
  omega

/-- Reading any index of a list of bytes with default 0 stays below
256. -/
theorem getD_lt_of_all {L : List Nat} (h : ∀ x ∈ L, x < 256) (i : Nat) :
    L.getD i 0 < 256 := by
  induction L generalizing i with
  | nil => simp [List.getD]
  | cons x xs ih =>
    cases i with
    | zero => simpa using h x (List.mem_cons_self x xs)
    | succ j => simpa [List.getD] using ih (fun y hy => h y (List.mem_cons_of_mem x hy)) j

/-- Every entry of the compiled font table fits in a byte (`u8` in the
source), checked by evaluation. -/
theorem fontData_all_true : FONT_DATA.all (fun x => decide (x < 256)) = true := by rfl

/-- Every entry of the compiled font table is below 256. -/
theorem fontData_all_lt : ∀ x ∈ FONT_DATA, x < 256 := by
  have h := fontData_all_true
  rw [List.all_eq_true] at h
  intro x hx
  simpa using h x hx

/-- Every font lookup produces a byte. -/
theorem font_lookup_lt (g : Glyph) (row : Nat) : font_lookup g row < 256 := by
  unfold font_lookup
  exact getD_lt_of_all fontData_all_lt _

/-- An in-bounds `write_char` stores the mapped glyph at the addressed
cell. -/
theorem write_char_text_hit (fb : FrameBuffer) (ch : Char) (x y : Nat)
    (hx : x < TEXT_MAX_COLS) (hy : y < TEXT_MAX_ROWS) :
    (write_char fb ch x y).text y x = map_char ch := by
  simp [write_char, hx, hy]

/-- A `write_char` leaves every cell other than the addressed one
unchanged. -/
theorem write_char_text_miss (fb : FrameBuffer) (ch : Char) (x y r c : Nat)
    (h : ¬(r = y ∧ c = x)) :
    (write_char fb ch x y).text r c = fb.text r c := by
  unfold write_char
  split
  next hb => simp [h]
  next hb => rfl

/-- The word `render` computes for a word column inside the text band:
the two adjacent cells' font-row bytes packed left-high. -/
theorem render_word (fb : FrameBuffer) (l wc : Nat) (h1 : fb.fb_line = some l)
    (h2 : l < VISIBLE_LINES_WITH_TEXT) (h3 : wc < HORIZONTAL_WORDS) :
    (render fb).render_line wc =
      (font_lookup (fb.text (l / FONT_HEIGHT) (wc * 2)) (l % FONT_HEIGHT) <<< 8) |||
        font_lookup (fb.text (l / FONT_HEIGHT) (wc * 2 + 1)) (l % FONT_HEIGHT) := by
  unfold render
  rw [h1]
  dsimp only
  rw [if_pos h2]
  dsimp only
  rw [if_pos h3]

/-- Iterating `start_of_line` without reaching the wrap point adds the
iteration count to the line counter. -/
theorem advanceFB_iter_line_no (k : Nat) : ∀ fb : FrameBuffer,
    fb.line_no + k < V_WHOLE_FRAME → (advanceFB^[k] fb).line_no = fb.line_no + k := by
  induction k with
  | zero => intro fb h; rfl
  | succ k ih =>
    intro fb h
    rw [Function.iterate_succ_apply]
    have h1 : (advanceFB fb).line_no = fb.line_no + 1 := by
      rw [advanceFB_line_no, if_neg (by omega)]
    rw [ih (advanceFB fb) (by rw [h1]; omega), h1]
    omega

/-- Iterating `advance_line` without reaching the wrap point adds the
iteration count to the line counter and leaves the frame counter
unchanged. -/
theorem advance_line_iter_no_wrap (k : Nat) : ∀ s : SeqState,
    s.fb.line_no + k < V_WHOLE_FRAME →
    (advance_line^[k] s).fb.line_no = s.fb.line_no + k ∧
    (advance_line^[k] s).frame_counter = s.frame_counter := by
  induction k with
  | zero => intro s h; exact ⟨rfl, rfl⟩
  | succ k ih =>
    intro s h
    rw [Function.iterate_succ_apply]
    have hline : (advance_line s).fb.line_no = s.fb.line_no + 1 := by
      show (advanceFB s.fb).line_no = s.fb.line_no + 1
      rw [advanceFB_line_no, if_neg (by omega)]
    have hfc : (advance_line s).frame_counter = s.frame_counter := by
      unfold advance_line
      dsimp only
      rw [if_neg (by omega)]
    obtain ⟨ih1, ih2⟩ := ih (advance_line s) (by rw [hline]; omega)
    constructor
    · rw [ih1, hline]; omega
    · rw [ih2, hfc]

/-- C1: after a `start_of_line` step, `fb_line` is `Some` exactly when the
new `line_no` lies in `[V_SYNC_PULSE + V_BACK_PORCH,
V_SYNC_PULSE + V_BACK_PORCH + V_VISIBLE_AREA)`, and in that case it
carries `(line_no - V_SYNC_PULSE - V_BACK_PORCH) / 2` (two physical
scanlines per stored line); otherwise it is `None`. Proved for every
state, hence for every reachable one. -/
theorem c1_visible_line_invariant (fb : FrameBuffer) (pc4 : Bool) :
    ((start_of_line fb pc4).1).fb_line =
      if V_SYNC_PULSE + V_BACK_PORCH ≤ ((start_of_line fb pc4).1).line_no ∧
          ((start_of_line fb pc4).1).line_no < V_SYNC_PULSE + V_BACK_PORCH + V_VISIBLE_AREA then
        some ((((start_of_line fb pc4).1).line_no - V_SYNC_PULSE - V_BACK_PORCH) / 2)
      else none := by
  rw [start_of_line_fst, advanceFB_fb_line]
  simp [Nat.shiftRight_eq_div_pow, Nat.sub_sub]

/-- C2: evidence that the claim fails on the code. Starting deasserted,
the PC4 vsync pin is deasserted again after every single `start_of_line`
call (the vsync assert at the wrap to line 0 and the deassert at
`line_no = V_SYNC_PULSE` are commented out in the source; the pin is only
pulsed around `render`), so in particular after the wrap to line 0 - a
line inside the sync pulse, where the claim requires the pin to be
asserted - it is low. -/
theorem c2_vsync_pin_never_asserted :
    (∀ fb : FrameBuffer, (start_of_line fb false).2 = false) ∧
    (start_of_line fb627 false).1.line_no = 0 ∧
    (start_of_line fb627 false).2 = false ∧
    0 < V_SYNC_PULSE := by
  refine ⟨?_, by decide, by decide, by decide⟩
  intro fb
  unfold start_of_line
  dsimp only
  split <;> first | rfl | (split <;> rfl)

/-- C3: from any reachable sequencer state (`line_no < V_WHOLE_FRAME`),
applying `advance_line` exactly `V_WHOLE_FRAME` (628) times returns
`line_no` to its original value and increments `frame_counter` by exactly
one. -/
theorem c3_frame_roundtrip (s : SeqState) (h : s.fb.line_no < V_WHOLE_FRAME) :
    (advance_line^[V_WHOLE_FRAME] s).fb.line_no = s.fb.line_no ∧
    (advance_line^[V_WHOLE_FRAME] s).frame_counter = s.frame_counter + 1 := by
  have hsplit : V_WHOLE_FRAME = s.fb.line_no + (1 + (V_WHOLE_FRAME - 1 - s.fb.line_no)) := by
    omega
  rw [hsplit, Function.iterate_add_apply, Function.iterate_add_apply, Function.iterate_one]
  obtain ⟨h1, h2⟩ :=
    advance_line_iter_no_wrap (V_WHOLE_FRAME - 1 - s.fb.line_no) s (by omega)
  have hwrap : (advance_line (advance_line^[V_WHOLE_FRAME - 1 - s.fb.line_no] s)).fb.line_no = 0 := by
    show (advanceFB _).line_no = 0
    rw [advanceFB_line_no, h1, if_pos (by omega)]
  have hwrapfc :
      (advance_line (advance_line^[V_WHOLE_FRAME - 1 - s.fb.line_no] s)).frame_counter =
        s.frame_counter + 1 := by
    show (if (advance_line^[V_WHOLE_FRAME - 1 - s.fb.line_no] s).fb.line_no + 1 = V_WHOLE_FRAME
        then (advance_line^[V_WHOLE_FRAME - 1 - s.fb.line_no] s).frame_counter + 1
        else (advance_line^[V_WHOLE_FRAME - 1 - s.fb.line_no] s).frame_counter) =
      s.frame_counter + 1
    rw [h1, if_pos (by omega), h2]
  obtain ⟨h3, h4⟩ :=
    advance_line_iter_no_wrap s.fb.line_no
      (advance_line (advance_line^[V_WHOLE_FRAME - 1 - s.fb.line_no] s)) (by rw [hwrap]; omega)
  constructor
  · rw [h3, hwrap]; omega
  · rw [h4, hwrapfc]

/-- C7: rendering any line at or beyond `VISIBLE_LINES_WITH_TEXT` inside
the visible band zeroes every one of the `HORIZONTAL_WORDS` words. -/
theorem c7_blank_beyond_text (fb : FrameBuffer) (l : Nat) (h1 : fb.fb_line = some l)
    (h2 : VISIBLE_LINES_WITH_TEXT ≤ l) (wc : Nat) (h3 : wc < HORIZONTAL_WORDS) :
    (render fb).render_line wc = 0 := by
  unfold render
  rw [h1]
  dsimp only
  rw [if_neg (by omega)]
  dsimp only
  rw [if_pos h3]

/-- C7 witness: line 288 rendered at word column 0 is zero. -/
theorem c7_witness :
    ({ blankFB with fb_line := some VISIBLE_LINES_WITH_TEXT } : FrameBuffer).fb_line =
        some VISIBLE_LINES_WITH_TEXT ∧
      VISIBLE_LINES_WITH_TEXT ≤ VISIBLE_LINES_WITH_TEXT ∧ 0 < HORIZONTAL_WORDS ∧
      (render { blankFB with fb_line := some VISIBLE_LINES_WITH_TEXT }).render_line 0 = 0 :=
  ⟨rfl, Nat.le_refl _, by decide,
    c7_blank_beyond_text _ VISIBLE_LINES_WITH_TEXT rfl (Nat.le_refl _) 0 (by decide)⟩

/-- C9: `write_char` out of bounds returns the frame buffer unchanged (a
silent no-op, the function is total); in bounds it sets exactly the
addressed cell to `map_char ch` and no other cell; and `map_char` sends
every character outside its closed table to `Glyph.Unknown`. -/
theorem c9_write_char_bounds (fb : FrameBuffer) (ch : Char) (x y : Nat) :
    (TEXT_MAX_COLS ≤ x ∨ TEXT_MAX_ROWS ≤ y → write_char fb ch x y = fb) ∧
    (x < TEXT_MAX_COLS → y < TEXT_MAX_ROWS →
      (write_char fb ch x y).text y x = map_char ch ∧
      ∀ r c, ¬(r = y ∧ c = x) → (write_char fb ch x y).text r c = fb.text r c) ∧
    (ch ≠ 'A' → ch ≠ 'B' → ch ≠ 'C' → ch ≠ 'D' → ch ≠ 'R' → ch ≠ ' ' →
      map_char ch = Glyph.Unknown) := by
  refine ⟨?_, ?_, ?_⟩
  · intro h
    unfold write_char
    rw [if_neg (by omega)]
  · intro hx hy
    exact ⟨write_char_text_hit fb ch x y hx hy,
      fun r c hrc => write_char_text_miss fb ch x y r c hrc⟩
  · intro h1 h2 h3 h4 h5 h6
    unfold map_char
    rw [if_neg h1, if_neg h2, if_neg h3, if_neg h4, if_neg h5, if_neg h6]

/-- C9 witness: an out-of-bounds write is the identity, an in-bounds
write stores the mapped glyph, and an unmapped character yields the
unknown glyph. -/
theorem c9_witness :
    write_char blankFB 'Z' TEXT_MAX_COLS 0 = blankFB ∧
    (write_char blankFB 'Q' 2 3).text 3 2 = map_char 'Q' ∧
    map_char 'Z' = Glyph.Unknown :=
  ⟨(c9_write_char_bounds blankFB 'Z' TEXT_MAX_COLS 0).1 (Or.inl (Nat.le_refl _)),
    ((c9_write_char_bounds blankFB 'Q' 2 3).2.1 (by decide) (by decide)).1,
    (c9_write_char_bounds blankFB 'Z' 0 0).2.2 (by decide) (by decide) (by decide) (by decide)
      (by decide) (by decide)⟩

/-- Every glyph discriminant is at most 95. -/
theorem glyphCode_le (g : Glyph) : glyphCode g ≤ 95 := by
  cases g <;> decide

/-- C10: for every line `render` can see (inside the text band), the text
row index is below `TEXT_MAX_ROWS` and every word column addresses text
columns below `TEXT_MAX_COLS`; and every font lookup index is inside
`FONT_DATA`. -/
theorem c10_render_in_bounds :
    (∀ l, l < VISIBLE_LINES → l < VISIBLE_LINES_WITH_TEXT →
      l / FONT_HEIGHT < TEXT_MAX_ROWS ∧
      ∀ wc, wc < HORIZONTAL_WORDS → wc * 2 + 1 < TEXT_MAX_COLS) ∧
    (∀ (g : Glyph) (fr : Nat), fr < FONT_HEIGHT →
      glyphCode g * FONT_HEIGHT + fr < FONT_DATA.length) := by
  constructor
  · intro l hv h2
    constructor
    · simp only [show FONT_HEIGHT = 16 from rfl, show TEXT_MAX_ROWS = 18 from rfl,
        show VISIBLE_LINES_WITH_TEXT = 288 from rfl] at *
      omega
    · intro wc hwc
      simp only [show HORIZONTAL_WORDS = 25 from rfl, show TEXT_MAX_COLS = 50 from rfl] at *
      omega
  · intro g fr hfr
    have hg := glyphCode_le g
    have hlen : FONT_DATA.length = 1536 := by decide
    simp only [show FONT_HEIGHT = 16 from rfl] at hfr
    rw [hlen]
    simp only [show FONT_HEIGHT = 16 from rfl]
    omega

/-- C10 witness: the bounds evaluated at line 0 and at the last row of
the last glyph. -/
theorem c10_witness :
    (0 < VISIBLE_LINES ∧ 0 < VISIBLE_LINES_WITH_TEXT ∧
      0 / FONT_HEIGHT < TEXT_MAX_ROWS) ∧
    (15 < FONT_HEIGHT ∧ glyphCode Glyph.Tilde * FONT_HEIGHT + 15 < FONT_DATA.length) :=
  ⟨⟨by decide, by decide, (c10_render_in_bounds.1 0 (by decide) (by decide)).1⟩,
    ⟨by decide, c10_render_in_bounds.2 Glyph.Tilde 15 (by decide)⟩⟩

/-- Unrolling the clock-out loop's fold into one flat event list. -/
theorem emit_foldl (ws : List Nat) (acc : List SsiEvent) :
    ws.foldl (fun trace word => trace ++ [SsiEvent.write word, SsiEvent.spin_wait_tnf]) acc =
      acc ++ ws.flatMap (fun w => [SsiEvent.write w, SsiEvent.spin_wait_tnf]) := by
  induction ws generalizing acc with
  | nil => simp
  | cons w ws ih => simp [ih, List.append_assoc]

/-- C5 counterexample: on a visible line the trace `start_of_data`
performs differs from the claim's trace in which a TNF spin-wait precedes
each data write - the code's first action is a write, not a wait. -/
theorem c5_counterexample : start_of_data fbC5 ≠ specEmitTrace fbC5 := by decide

/-- C5 (amended): `start_of_data` performs no peripheral action when
`fb_line` is `None`; otherwise it writes each of the rendered words to
the data register in index order, spin-waiting on the TNF flag after
(not before) each write. -/
theorem c5_emit_after_write (fb : FrameBuffer) :
    start_of_data fb =
      if fb.fb_line.isSome then
        (renderWords fb).flatMap fun w => [SsiEvent.write w, SsiEvent.spin_wait_tnf]
      else [] := by
  unfold start_of_data
  split
  next h => rw [emit_foldl, List.nil_append]
  next h => rfl

/-- C8 counterexample: writing the two characters A, B starting at the
bottom-right cell puts B at the top-left cell `(0,0)` and leaves the
bottom row blank - the claimed scroll would have shifted rows up and put
B on the bottom row. -/
theorem c8_counterexample :
    (write_string blankFB ['A', 'B'] MAX_X MAX_Y).text 0 0 = Glyph.UppercaseB ∧
    (write_string blankFB ['A', 'B'] MAX_X MAX_Y).text MAX_Y 0 ≠ Glyph.UppercaseB := by
  decide

/-- C8 (amended): when the cursor passes the last cell, `write_string`
wraps to row 0, column 0 and overwrites from the top; no rows shift and
nothing is cleared. -/
theorem c8_wrap_to_top (fb : FrameBuffer) (c1 c2 : Char) :
    write_string fb [c1, c2] MAX_X MAX_Y =
      write_char (write_char fb c1 MAX_X MAX_Y) c2 0 0 := by
  rfl

/-- C4 counterexample: from line 26 (last back-porch line), the first and
second visible calls both carry `fb_line = some 0`; the claim's value
sequence `0, 1, 2, ...` would require the second visible call to carry
`some 1`. -/
theorem c4_counterexample :
    (advanceFB (advanceFB fb26)).fb_line = some 0 ∧
    (advanceFB (advanceFB fb26)).fb_line ≠ some 1 := by
  decide

/-- After at least one `start_of_line` step, `fb_line` is determined by
the current line counter as in the single-step characterisation. -/
theorem advanceFB_iter_fb_line (k : Nat) (fb : FrameBuffer) (h : 1 ≤ k) :
    (advanceFB^[k] fb).fb_line =
      if V_SYNC_PULSE + V_BACK_PORCH ≤ (advanceFB^[k] fb).line_no ∧
          (advanceFB^[k] fb).line_no < V_SYNC_PULSE + V_BACK_PORCH + V_VISIBLE_AREA then
        some (((advanceFB^[k] fb).line_no - (V_SYNC_PULSE + V_BACK_PORCH)) >>> 1)
      else none := by
  obtain ⟨j, rfl⟩ : ∃ j, k = j + 1 := ⟨k - 1, by omega⟩
  rw [Function.iterate_succ_apply']
  exact advanceFB_fb_line _

/-- C4 (amended): within a frame entered at line 26, the k-th of the
following `V_WHOLE_FRAME` calls has `fb_line = some ((k - 1) / 2)` for
`k = 1 .. V_VISIBLE_AREA` - exactly 600 consecutive visible calls whose
values are each frame row twice, `0,0,1,1,...,299,299`, monotone
non-decreasing - and `fb_line = none` for the remaining calls of the
frame; the carried values do depend on the vertical scale factor. -/
theorem c4_visible_run (fb : FrameBuffer) (k : Nat)
    (h0 : fb.line_no = V_SYNC_PULSE + V_BACK_PORCH - 1) (h1 : 1 ≤ k)
    (h2 : k ≤ V_WHOLE_FRAME) :
    (advanceFB^[k] fb).fb_line = if k ≤ V_VISIBLE_AREA then some ((k - 1) / 2) else none := by
  simp only [show V_SYNC_PULSE + V_BACK_PORCH - 1 = 26 from rfl] at h0
  simp only [show V_WHOLE_FRAME = 628 from rfl] at h2
  simp only [show V_VISIBLE_AREA = 600 from rfl]
  rw [advanceFB_iter_fb_line k fb h1]
  by_cases hc : k ≤ 601
  · have hline : (advanceFB^[k] fb).line_no = 26 + k := by
      have hx := advanceFB_iter_line_no k fb
        (by rw [h0]; simp only [show V_WHOLE_FRAME = 628 from rfl]; omega)
      rw [h0] at hx
      exact hx
    rw [hline]
    rw [show V_SYNC_PULSE + V_BACK_PORCH + V_VISIBLE_AREA = 627 from rfl,
      show V_SYNC_PULSE + V_BACK_PORCH = 27 from rfl]
    simp only [Nat.shiftRight_eq_div_pow, pow_one]
    by_cases hj : k ≤ 600
    · rw [if_pos (by omega), if_pos hj]
      congr 1
      omega
    · rw [if_neg (by omega), if_neg hj]
  · have hline : (advanceFB^[k] fb).line_no = k - 602 := by
      obtain ⟨m, rfl⟩ : ∃ m, k = m + 602 := ⟨k - 602, by omega⟩
      rw [Function.iterate_add_apply]
      have hl601 : (advanceFB^[601] fb).line_no = 627 := by
        have hx := advanceFB_iter_line_no 601 fb
          (by rw [h0]; simp only [show V_WHOLE_FRAME = 628 from rfl]; omega)
        rw [h0] at hx
        exact hx
      have hl602 : (advanceFB^[602] fb).line_no = 0 := by
        rw [show (602 : Nat) = 601 + 1 from rfl, Function.iterate_succ_apply',
          advanceFB_line_no, hl601]
        rw [if_pos (by decide)]
      have hx := advanceFB_iter_line_no m (advanceFB^[602] fb)
        (by rw [hl602]; simp only [show V_WHOLE_FRAME = 628 from rfl]; omega)
      rw [hl602] at hx
      rw [hx]
      omega
    rw [hline]
    rw [show V_SYNC_PULSE + V_BACK_PORCH + V_VISIBLE_AREA = 627 from rfl,
      show V_SYNC_PULSE + V_BACK_PORCH = 27 from rfl]
    rw [if_neg (by omega), if_neg (by omega)]

/-- C4 witness: the second visible call of a frame carries
`some ((2 - 1) / 2) = some 0`. -/
theorem c4_witness :
    fb26.line_no = V_SYNC_PULSE + V_BACK_PORCH - 1 ∧ 1 ≤ 2 ∧ 2 ≤ V_WHOLE_FRAME ∧
    (advanceFB^[2] fb26).fb_line = if 2 ≤ V_VISIBLE_AREA then some ((2 - 1) / 2) else none :=
  ⟨rfl, by decide, by decide, c4_visible_run fb26 2 rfl (by decide) (by decide)⟩

/-- C6: after writing A at an in-bounds cell `(c, r)`, rendering any
scanline `l` of the 16 with `l / FONT_HEIGHT = r` reproduces, in the byte
of `render_line` for column `c`, the compiled font byte of glyph
`UppercaseA` at row `l % FONT_HEIGHT`. -/
theorem c6_font_round_trip (fb : FrameBuffer) (c r l : Nat) (hc : c < TEXT_MAX_COLS)
    (hr : r < TEXT_MAX_ROWS) (hl : l / FONT_HEIGHT = r) :
    columnByte (render { write_char fb 'A' c r with fb_line := some l }) c =
      FONT_DATA.getD (glyphCode Glyph.UppercaseA * FONT_HEIGHT + l % FONT_HEIGHT) 0 := by
  have hc50 : c < 50 := by simpa [show TEXT_MAX_COLS = 50 from rfl] using hc
  have hr18 : r < 18 := by simpa [show TEXT_MAX_ROWS = 18 from rfl] using hr
  have hl16 : l / 16 = r := by simpa [show FONT_HEIGHT = 16 from rfl] using hl
  have hl288 : l < VISIBLE_LINES_WITH_TEXT := by
    simp only [show VISIBLE_LINES_WITH_TEXT = 288 from rfl]
    omega
  have hwc : c / 2 < HORIZONTAL_WORDS := by
    simp only [show HORIZONTAL_WORDS = 25 from rfl]
    omega
  have hword := render_word { write_char fb 'A' c r with fb_line := some l } l (c / 2)
    rfl hl288 hwc
  have htext :
      ({ write_char fb 'A' c r with fb_line := some l } : FrameBuffer).text =
        (write_char fb 'A' c r).text := rfl
  unfold columnByte
  dsimp only
  rcases Nat.even_or_odd c with he | ho
  · obtain ⟨m, hm⟩ := he
    rw [if_pos (by omega), hword, hl, htext]
    rw [show c / 2 * 2 = c from by omega]
    rw [write_char_text_hit fb 'A' c r hc hr]
    rw [show map_char 'A' = Glyph.UppercaseA from rfl]
    rw [hi_byte _ _ (font_lookup_lt _ _) (font_lookup_lt _ _)]
    rfl
  · obtain ⟨m, hm⟩ := ho
    rw [if_neg (by omega), hword, hl, htext]
    rw [show c / 2 * 2 + 1 = c from by omega]
    rw [write_char_text_hit fb 'A' c r hc hr]
    rw [show map_char 'A' = Glyph.UppercaseA from rfl]
    rw [lo_byte _ _ (font_lookup_lt _ _)]
    rfl

/-- C6 witness: cell `(3, 1)`, scanline 20 (font row 4) reproduces the
font byte of A. -/
theorem c6_witness :
    3 < TEXT_MAX_COLS ∧ 1 < TEXT_MAX_ROWS ∧ 20 / FONT_HEIGHT = 1 ∧
    columnByte (render { write_char blankFB 'A' 3 1 with fb_line := some 20 }) 3 =
      FONT_DATA.getD (glyphCode Glyph.UppercaseA * FONT_HEIGHT + 20 % FONT_HEIGHT) 0 :=
  ⟨by decide, by decide, by decide,
    c6_font_round_trip blankFB 3 1 20 (by decide) (by decide) (by decide)⟩

/-- C3 witness: the round trip evaluated from the initial state. -/
theorem c3_witness :
    ({ fb := blankFB, frame_counter := 0 } : SeqState).fb.line_no < V_WHOLE_FRAME ∧
    ((advance_line^[V_WHOLE_FRAME] { fb := blankFB, frame_counter := 0 }).fb.line_no =
        ({ fb := blankFB, frame_counter := 0 } : SeqState).fb.line_no ∧
      (advance_line^[V_WHOLE_FRAME] { fb := blankFB, frame_counter := 0 }).frame_counter =
        ({ fb := blankFB, frame_counter := 0 } : SeqState).frame_counter + 1) :=
  ⟨by decide, c3_frame_roundtrip { fb := blankFB, frame_counter := 0 } (by decide)⟩
